import Mathlib

/-
Verification of the resilient HTTP client of matrix-system
(src/matrix_system/api/client.py together with api/exceptions.py and
utils/config.py), as a shallow embedding.

The embedding models:
  * JSON values as parsed by Python's json module (`Json`);
  * Python `int()` applied to a string (`pyInt`);
  * the configuration fields the client reads (`Config`);
  * an HTTP response as observed through the httpx API (`Response`):
    its status code, raw body, the outcome of `response.json()`, the
    `Retry-After` header, and the text of the `HTTPStatusError` that
    `raise_for_status` builds (`statusText`);
  * `MatrixClient._handle_response` (`handle_response`), with the
    exception classes of api/exceptions.py as the `PyError` type, and the
    non-taxonomy exceptions the method can leak (UnboundLocalError from
    the unassigned `error_data` local, ValueError from `int()`, and the
    JSON decode error of the success path);
  * the retry loop of `MatrixClient.request` (`requestGo` / `requestT`),
    driven by an oracle `net : Nat → AttemptOutcome` giving the outcome
    of each network attempt;
  * `MatrixClient._get_headers` and the `dict.update` merge performed by
    `request` (`get_headers`, `dictUpdate`).
-/

namespace MatrixSystem

/-- JSON values as produced by Python's `json.loads`.  Objects are Python
dicts, modelled as association lists with distinct keys; numbers are
modelled as integers (no claim involves fractional numbers). -/
inductive Json where
  | jnull
  | jbool (b : Bool)
  | jnum (n : Int)
  | jstr (s : String)
  | jarr (elems : List Json)
  | jobj (fields : List (String × Json))

mutual

/-- Python `repr` of a JSON-decoded value (string escaping not modelled;
no claim exercises it on strings needing escapes). -/
def Json.pyRepr : Json → String
  | .jnull => "None"
  | .jbool true => "True"
  | .jbool false => "False"
  | .jnum n => toString n
  | .jstr s => "\x27" ++ s ++ "\x27"
  | .jarr xs => "[" ++ pyReprElems xs ++ "]"
  | .jobj fs => "\x7b" ++ pyReprFields fs ++ "\x7d"

/-- Comma-joined `repr`s of list elements. -/
def pyReprElems : List Json → String
  | [] => ""
  | [j] => Json.pyRepr j
  | j :: rest => Json.pyRepr j ++ ", " ++ pyReprElems rest

/-- Comma-joined `repr`s of dict entries. -/
def pyReprFields : List (String × Json) → String
  | [] => ""
  | [(k, v)] => "\x27" ++ k ++ "\x27: " ++ Json.pyRepr v
  | (k, v) :: rest => "\x27" ++ k ++ "\x27: " ++ Json.pyRepr v ++ ", " ++ pyReprFields rest

end

/-- Python `str` of a JSON-decoded value: the identity on strings, and
`repr`-rendering on everything else (matching CPython's `str`). -/
def Json.pyStr : Json → String
  | .jstr s => s
  | j => j.pyRepr

/-- Python truthiness of a JSON-decoded value (used by the
`response_data or {}` normalisation in `MatrixAPIError.__init__`). -/
def Json.pyTruthy : Json → Bool
  | .jnull => false
  | .jbool b => b
  | .jnum n => n != 0
  | .jstr s => s != ""
  | .jarr xs => !xs.isEmpty
  | .jobj fs => !fs.isEmpty

/-- Helper for `pyInt`: accepts `(U? D)*` continuations of a digit run,
where an underscore must be followed by a digit (CPython grouping rule). -/
def pyDigitsRest : List Char → Bool
  | [] => true
  | '_' :: d :: rest => d.isDigit && pyDigitsRest rest
  | '_' :: [] => false
  | c :: rest => c.isDigit && pyDigitsRest rest

/-- Helper for `pyInt`: a valid digit sequence `D (U? D)*`. -/
def pyDigits : List Char → Bool
  | [] => false
  | c :: rest => c.isDigit && pyDigitsRest rest

/-- ASCII whitespace as stripped by Python's `int()` before parsing. -/
def pyWhitespace (c : Char) : Bool :=
  c == ' ' || c == '\t' || c == '\n' || c == '\r' || c == '\x0b' || c == '\x0c'

/-- Strip leading and trailing whitespace from a character list. -/
def trimChars (cs : List Char) : List Char :=
  ((cs.dropWhile pyWhitespace).reverse.dropWhile pyWhitespace).reverse

/-- The numeric value of a digit sequence (underscores ignored). -/
def digitsVal (cs : List Char) : Int :=
  cs.foldl (fun acc c => if c.isDigit then acc * 10 + (c.toNat - 48) else acc) 0

/-- Python `int(s)` on a decimal string: optional surrounding whitespace,
optional sign, digits with optional single grouping underscores.
`none` models a raised `ValueError`.  (Non-ASCII digits and other
numeric bases are not modelled; no claim involves them.) -/
def pyInt (s : String) : Option Int :=
  match trimChars s.toList with
  | '-' :: core => if pyDigits core then some (-(digitsVal core)) else none
  | '+' :: core => if pyDigits core then some (digitsVal core) else none
  | core => if pyDigits core then some (digitsVal core) else none

/-- Substring test on character lists: `pat` occurs contiguously in `s`. -/
def listHasSub (s pat : List Char) : Bool :=
  (List.range (s.length + 1)).any (fun i => pat.isPrefixOf (s.drop i))

/-- Substring test on strings: `pat` occurs contiguously in `s`. -/
def strHasSub (s pat : String) : Bool :=
  listHasSub s.toList pat.toList

/-- The configuration fields that `MatrixClient` reads
(utils/config.py): the optional bearer token, the timeout in seconds,
and the retry bound.  Service URLs are irrelevant to the claims. -/
structure Config where
  api_token : Option String
  timeout : Nat
  max_retries : Nat

/-- Python truthiness of `self.config.api_token` (`if self.config.api_token:`):
a token is "configured" when it is present and non-empty. -/
def Config.tokenTruthy (cfg : Config) : Bool :=
  match cfg.api_token with
  | some s => s != ""
  | none => false

/-- A received HTTP response, as observed through the httpx calls the
client makes.  `jsonBody` is the outcome of `response.json()`
(`none` models a raised JSONDecodeError), `content` the raw body,
`retryAfterHeader` the value of `headers.get("Retry-After")`, and
`statusText` the message `str(e)` of the `httpx.HTTPStatusError` raised
by `raise_for_status` (the raw status text). -/
structure Response where
  status : Nat
  content : String
  jsonBody : Option Json
  retryAfterHeader : Option String
  statusText : String

/-- httpx `Response.is_success`, the gate of `raise_for_status`:
true exactly for 2xx status codes.  `raise_for_status` raises
`HTTPStatusError` for every non-2xx response (informational, redirect,
client error, server error alike). -/
def isSuccessStatus (status : Nat) : Bool :=
  200 ≤ status && status < 300

/-- The remediation hint appended to 401/403 error messages when no
token is configured (client.py lines 142-147, the two implicitly
concatenated string literals). -/
def missingTokenHint : String :=
  " (token missing: set MATRIX_HUB_TOKEN / MATRIX_TOKEN / API_TOKEN " ++
  "for operator/admin endpoints like install/remotes/ingest)"

/-- Exceptions that `_handle_response` / `request` can raise.  The first
seven constructors are the exception classes of api/exceptions.py; the
last three are the non-taxonomy exceptions the code can leak:
`unboundLocalError` models the `UnboundLocalError` raised when the
unassigned local `error_data` is referenced, `valueError` the
`ValueError` of `int()` on a malformed `Retry-After` value, and
`jsonDecodeError` the decode error of the success path.
`matrixAuth` carries a `String` message because the code formats it with
an f-string; the other taxonomy constructors carry the Python object
`error_message` unchanged. -/
inductive PyError where
  | matrixAuth (message : String) (status : Nat)
  | matrixNotFound (message : Json) (status : Nat)
  | matrixValidation (message : Json) (status : Nat) (responseData : Json)
  | matrixRateLimit (message : Json) (status : Nat) (retryAfter : Option Int)
  | matrixAPI (message : Json) (status : Nat) (responseData : Json)
  | matrixConnection (message : String)
  | matrixTimeout (message : String)
  | unboundLocalError
  | valueError (invalidLiteral : String)
  | jsonDecodeError

/-- Whether an exception belongs to the documented error taxonomy
(a subclass of `MatrixAPIError`). -/
def PyError.isTaxonomyError : PyError → Bool
  | .matrixAuth _ _ => true
  | .matrixNotFound _ _ => true
  | .matrixValidation _ _ _ => true
  | .matrixRateLimit _ _ _ => true
  | .matrixAPI _ _ _ => true
  | .matrixConnection _ => true
  | .matrixTimeout _ => true
  | .unboundLocalError => false
  | .valueError _ => false
  | .jsonDecodeError => false

/-- The local `error_data` of `_handle_response`: assigned exactly when
`e.response.json()` succeeds; `none` means the local is never assigned
(referencing it then raises UnboundLocalError). -/
def errorDataOf (r : Response) : Option Json :=
  r.jsonBody

/-- The local `error_message` of `_handle_response`:
`error_data.get("detail", str(e))` guarded by `except Exception`, so a
failed JSON decode, a non-dict body, or an absent `detail` field all
degrade to `str(e)` (the raw status text). -/
def errorMessageOf (r : Response) : Json :=
  match r.jsonBody with
  | some (.jobj fields) =>
      match fields.lookup "detail" with
      | some v => v
      | none => .jstr r.statusText
  | some _ => .jstr r.statusText
  | none => .jstr r.statusText

/-- The `response_data or {}` normalisation performed by
`MatrixAPIError.__init__` (exceptions.py line 37). -/
def normData (j : Json) : Json :=
  if j.pyTruthy then j else .jobj []

/-- `MatrixClient._handle_response` (client.py lines 105-163).
A 2xx response is decoded (`raise_for_status` returns); every other
response raises `HTTPStatusError`, and the handler classifies it by
status code exactly as the source does. -/
def handle_response (cfg : Config) (r : Response) : Except PyError Json :=
  if isSuccessStatus r.status then
    if r.content != "" then
      match r.jsonBody with
      | some j => .ok j
      | none => .error .jsonDecodeError
    else
      .ok (.jobj [])
  else
    if r.status = 401 ∨ r.status = 403 then
      .error (.matrixAuth
        ((errorMessageOf r).pyStr ++ (if cfg.tokenTruthy then "" else missingTokenHint))
        r.status)
    else if r.status = 404 then
      .error (.matrixNotFound (errorMessageOf r) r.status)
    else if r.status = 422 then
      match errorDataOf r with
      | some d => .error (.matrixValidation (errorMessageOf r) r.status (normData d))
      | none => .error .unboundLocalError
    else if r.status = 429 then
      match r.retryAfterHeader with
      | some s =>
          if s != "" then
            match pyInt s with
            | some n => .error (.matrixRateLimit (errorMessageOf r) r.status (some n))
            | none => .error (.valueError s)
          else
            .error (.matrixRateLimit (errorMessageOf r) r.status none)
      | none => .error (.matrixRateLimit (errorMessageOf r) r.status none)
    else
      match errorDataOf r with
      | some d => .error (.matrixAPI (errorMessageOf r) r.status (normData d))
      | none => .error .unboundLocalError

/-- The outcome of one network attempt (`self.client.request(...)`):
a raised `httpx.ConnectError`, a raised `httpx.TimeoutException`, or a
received response. -/
inductive AttemptOutcome where
  | connectError
  | timeoutError
  | response (r : Response)

/-- Whether an attempt outcome is a transport-level failure. -/
def AttemptOutcome.isTransport : AttemptOutcome → Bool
  | .connectError => true
  | .timeoutError => true
  | .response _ => false

/-- The terminal message of an exhausted connect-retry sequence
(client.py lines 220-222). -/
def connectFailMsg (url : String) (attempts : Nat) : String :=
  "Failed to connect to " ++ url ++ " after " ++ toString attempts ++ " attempts"

/-- The terminal message of an exhausted timeout-retry sequence
(client.py lines 234-236): it names the configured timeout, not the
attempt count. -/
def timeoutFailMsg (url : String) (timeout : Nat) : String :=
  "Request to " ++ url ++ " timed out after " ++ toString timeout ++ "s"

/-- The retry loop of `MatrixClient.request` (client.py lines 197-256).
`attempt` is the zero-based index of the attempt about to be made (the
`retries` counter of the source at the top of the loop body), and `rem`
is `max_retries - attempt`, the number of retries still allowed.  The
result is paired with the total number of network attempts performed, so
attempt-count properties can be stated.  A received response always
terminates the loop: the Matrix taxonomy errors are either explicitly
re-raised (`MatrixAuthError`, `MatrixValidationError`,
`MatrixNotFoundError`, `MatrixRateLimitError`) or not caught at all
(`MatrixAPIError` and the non-taxonomy exceptions), so every
`handle_response` outcome propagates unchanged.  The code after the
`while` loop (lines 251-256) is unreachable — the loop only exits via
`return` or `raise` — and is therefore not modelled. -/
def requestGo (cfg : Config) (url : String) (net : Nat → AttemptOutcome) :
    Nat → Nat → Except PyError Json × Nat
  | attempt, 0 =>
    match net attempt with
    | .response r => (handle_response cfg r, attempt + 1)
    | .connectError =>
        (.error (.matrixConnection (connectFailMsg url (attempt + 1))), attempt + 1)
    | .timeoutError =>
        (.error (.matrixTimeout (timeoutFailMsg url cfg.timeout)), attempt + 1)
  | attempt, rem + 1 =>
    match net attempt with
    | .response r => (handle_response cfg r, attempt + 1)
    | .connectError => requestGo cfg url net (attempt + 1) rem
    | .timeoutError => requestGo cfg url net (attempt + 1) rem

/-- `MatrixClient.request`: run the retry loop from the first attempt
with the full retry budget; also report the number of attempts made. -/
def requestT (cfg : Config) (url : String) (net : Nat → AttemptOutcome) :
    Except PyError Json × Nat :=
  requestGo cfg url net 0 cfg.max_retries

/-- The value (or raised exception) `MatrixClient.request` produces. -/
def request (cfg : Config) (url : String) (net : Nat → AttemptOutcome) :
    Except PyError Json :=
  (requestT cfg url net).1

/-- `MatrixClient._get_headers` (client.py lines 84-103): the fixed
header dict, with `Authorization: Bearer <token>` appended exactly when
the configured token is truthy. -/
def get_headers (cfg : Config) : List (String × String) :=
  let headers := [("Content-Type", "application/json"),
                  ("Accept", "application/json"),
                  ("User-Agent", "matrix-system/1.0.0")]
  if cfg.tokenTruthy then
    headers ++ [("Authorization", "Bearer " ++ cfg.api_token.getD "")]
  else
    headers

/-- One step of Python `d.update(u)` on an entry of `d`: keys present in
`u` get `u`'s value, others are unchanged. -/
def ovHdr (u : List (String × String)) (kv : String × String) : String × String :=
  match u.lookup kv.1 with
  | some v => (kv.1, v)
  | none => kv

/-- Python `d.update(u)` on dicts modelled as association lists:
existing keys keep their position with the updated value, new keys of
`u` are appended in order. -/
def dictUpdate (d u : List (String × String)) : List (String × String) :=
  d.map (ovHdr u) ++ u.filter (fun kv => (d.lookup kv.1).isNone)

/-- The header dict actually passed to the transport by `request`
(client.py lines 187-188): the caller-supplied dict updated with the
client's fixed headers. -/
def mergedHeaders (cfg : Config) (caller : List (String × String)) :
    List (String × String) :=
  dictUpdate caller (get_headers cfg)

/-! Concrete fixtures used by witnesses and counterexamples. -/

/-- A configuration with no token and the default bounds. -/
def cfgNone : Config := ⟨none, 30, 3⟩

/-- A configuration with a token configured. -/
def cfgTok : Config := ⟨some "seekrit", 30, 3⟩

/-- A configuration with `max_retries = 0`. -/
def cfgZero : Config := ⟨none, 30, 0⟩

/-- A 302 response without a `Location` header: it escapes httpx's
redirect following and reaches `_handle_response` with status below 400. -/
def r302NoLoc : Response :=
  ⟨302, "\x7b\x7d", some (.jobj []), none,
   "Redirect response 302 Found for url http://hub/health"⟩

/-- A 304 Not Modified response: status below 400, empty body. -/
def r304 : Response :=
  ⟨304, "", none, none,
   "Redirect response 304 Not Modified for url http://hub/health"⟩

/-- A 422 response whose body is not valid JSON. -/
def r422bad : Response :=
  ⟨422, "not json", none, none,
   "Client error 422 Unprocessable Entity for url http://hub/install"⟩

/-- A 500 response whose body is not valid JSON. -/
def r500bad : Response :=
  ⟨500, "oops", none, none,
   "Server error 500 Internal Server Error for url http://hub/install"⟩

/-- A 404 response whose body is not valid JSON. -/
def r404bad : Response :=
  ⟨404, "gone", none, none,
   "Client error 404 Not Found for url http://hub/missing"⟩

/-- A 401 response with an empty JSON object body. -/
def r401plain : Response :=
  ⟨401, "\x7b\x7d", some (.jobj []), none,
   "Client error 401 Unauthorized for url http://hub/install"⟩

/-- A 422 response with body `\x7b"detail": "bad field"\x7d`. -/
def r422detail : Response :=
  ⟨422, "\x7b\"detail\": \"bad field\"\x7d",
   some (.jobj [("detail", .jstr "bad field")]), none,
   "Client error 422 Unprocessable Entity for url http://hub/install"⟩

/-- A 429 response with header `Retry-After: 7`. -/
def r429seven : Response :=
  ⟨429, "", none, some "7",
   "Client error 429 Too Many Requests for url http://hub/search"⟩

/-- A 429 response without a `Retry-After` header. -/
def r429bare : Response :=
  ⟨429, "", none, none,
   "Client error 429 Too Many Requests for url http://hub/search"⟩

/-- A 429 response whose `Retry-After` header is an HTTP-date. -/
def r429date : Response :=
  ⟨429, "", none, some "Wed, 21 Oct 2015 07:28:00 GMT",
   "Client error 429 Too Many Requests for url http://hub/search"⟩

/-- A 200 response with an empty body. -/
def r200empty : Response := ⟨200, "", none, none, ""⟩

/-- A 200 response with body `\x7b"status": "ok"\x7d`. -/
def r200ok : Response :=
  ⟨200, "\x7b\"status\": \"ok\"\x7d", some (.jobj [("status", .jstr "ok")]), none, ""⟩

/-- A 200 response whose non-empty body is not valid JSON. -/
def r200bad : Response := ⟨200, "not json", none, none, ""⟩

/-- A network trace: one connect failure, then a 404 response. -/
def netMix : Nat → AttemptOutcome :=
  fun i => if i = 0 then .connectError else .response r404bad

/-! Substring lemmas. -/

theorem listHasSub_mid (a b c : List Char) : listHasSub (a ++ b ++ c) b = true := by
  unfold listHasSub
  rw [List.any_eq_true]
  refine ⟨a.length, List.mem_range.mpr ?_, ?_⟩
  · simp only [List.length_append]
    omega
  · rw [List.append_assoc, List.drop_left, List.isPrefixOf_iff_prefix]
    exact List.prefix_append b c

theorem listHasSub_suffix (a b : List Char) : listHasSub (a ++ b) b = true := by
  unfold listHasSub
  rw [List.any_eq_true]
  refine ⟨a.length, List.mem_range.mpr ?_, ?_⟩
  · simp only [List.length_append]
    omega
  · rw [List.drop_left, List.isPrefixOf_iff_prefix]

theorem toList_append (a b : String) : (a ++ b).toList = a.toList ++ b.toList := rfl

theorem strHasSub_mid (a b c : String) : strHasSub (a ++ b ++ c) b = true := by
  unfold strHasSub
  rw [toList_append, toList_append]
  exact listHasSub_mid a.toList b.toList c.toList

theorem strHasSub_suffix (a b : String) : strHasSub (a ++ b) b = true := by
  unfold strHasSub
  rw [toList_append]
  exact listHasSub_suffix a.toList b.toList

theorem strHasSub_suffix2 (x b c : String) : strHasSub (x ++ b ++ c) (b ++ c) = true := by
  unfold strHasSub
  rw [toList_append, toList_append, toList_append, List.append_assoc]
  exact listHasSub_suffix x.toList (b.toList ++ c.toList)

theorem str_append_empty (a : String) : a ++ "" = a :=
  String.append_empty a

/-! Retry-loop lemmas. -/

theorem requestGo_all_connect (cfg : Config) (url : String)
    (net : Nat → AttemptOutcome) :
    ∀ (rem attempt : Nat),
      (∀ i, attempt ≤ i → i ≤ attempt + rem → net i = .connectError) →
      requestGo cfg url net attempt rem =
        (.error (.matrixConnection (connectFailMsg url (attempt + rem + 1))),
         attempt + rem + 1) := by
  intro rem
  induction rem with
  | zero =>
      intro attempt h
      have hc : net attempt = .connectError := h attempt (Nat.le_refl _) (Nat.le_refl _)
      simp [requestGo, hc]
  | succ rem ih =>
      intro attempt h
      have hc : net attempt = .connectError :=
        h attempt (Nat.le_refl _) (by omega)
      have h' : ∀ i, attempt + 1 ≤ i → i ≤ attempt + 1 + rem → net i = .connectError := by
        intro i h1 h2
        exact h i (by omega) (by omega)
      have := ih (attempt + 1) h'
      simp only [requestGo, hc, this]
      have harith : attempt + 1 + rem = attempt + (rem + 1) := by omega
      rw [harith]

theorem requestGo_all_timeout (cfg : Config) (url : String)
    (net : Nat → AttemptOutcome) :
    ∀ (rem attempt : Nat),
      (∀ i, attempt ≤ i → i ≤ attempt + rem → net i = .timeoutError) →
      requestGo cfg url net attempt rem =
        (.error (.matrixTimeout (timeoutFailMsg url cfg.timeout)),
         attempt + rem + 1) := by
  intro rem
  induction rem with
  | zero =>
      intro attempt h
      have hc : net attempt = .timeoutError := h attempt (Nat.le_refl _) (Nat.le_refl _)
      simp [requestGo, hc]
  | succ rem ih =>
      intro attempt h
      have hc : net attempt = .timeoutError :=
        h attempt (Nat.le_refl _) (by omega)
      have h' : ∀ i, attempt + 1 ≤ i → i ≤ attempt + 1 + rem → net i = .timeoutError := by
        intro i h1 h2
        exact h i (by omega) (by omega)
      have := ih (attempt + 1) h'
      simp only [requestGo, hc, this]
      have harith : attempt + 1 + rem = attempt + (rem + 1) := by omega
      rw [harith]

theorem requestGo_response (cfg : Config) (url : String)
    (net : Nat → AttemptOutcome) :
    ∀ (j attempt rem : Nat) (r : Response), j ≤ rem →
      (∀ i, attempt ≤ i → i < attempt + j → (net i).isTransport = true) →
      net (attempt + j) = .response r →
      requestGo cfg url net attempt rem = (handle_response cfg r, attempt + j + 1) := by
  intro j
  induction j with
  | zero =>
      intro attempt rem r _ _ hresp
      rw [Nat.add_zero] at hresp
      cases rem <;> simp [requestGo, hresp]
  | succ j ih =>
      intro attempt rem r hj htrans hresp
      match rem, hj with
      | rem + 1, hj =>
        have ht : (net attempt).isTransport = true :=
          htrans attempt (Nat.le_refl _) (by omega)
        have htrans' : ∀ i, attempt + 1 ≤ i → i < attempt + 1 + j →
            (net i).isTransport = true := by
          intro i h1 h2
          exact htrans i (by omega) (by omega)
        have hresp' : net (attempt + 1 + j) = .response r := by
          have harith : attempt + 1 + j = attempt + (j + 1) := by omega
          rw [harith]
          exact hresp
        have hrec := ih (attempt + 1) rem r (by omega) htrans' hresp'
        have harith : attempt + 1 + j = attempt + (j + 1) := by omega
        rw [harith] at hrec
        cases hc : net attempt with
        | response r' => rw [hc] at ht; simp [AttemptOutcome.isTransport] at ht
        | connectError => simp only [requestGo, hc]; exact hrec
        | timeoutError => simp only [requestGo, hc]; exact hrec

/-- C1 (amended): for every configured `max_retries = n`, a call whose
attempts all fail with a transport connect failure makes exactly `n + 1`
attempts and terminates with a ConnectionFailure error; if instead the
`(n+1)`-th attempt receives a successful (2xx) response whose body is
empty or valid JSON, the call returns the decoded payload, not an
error; in particular `max_retries = 0` yields exactly one attempt and no
retry.  (The original claim said "successful (<400)": a non-2xx status
below 400 that reaches the handler — e.g. a redirect that httpx did not
follow — raises `HTTPStatusError` and is classified as an error, see the
counterexample.) -/
theorem C1_retry_bound :
    (∀ (cfg : Config) (url : String) (net : Nat → AttemptOutcome),
        (∀ i, i ≤ cfg.max_retries → net i = .connectError) →
        requestT cfg url net =
          (.error (.matrixConnection (connectFailMsg url (cfg.max_retries + 1))),
           cfg.max_retries + 1))
    ∧
    (∀ (cfg : Config) (url : String) (net : Nat → AttemptOutcome) (r : Response),
        (∀ i, i < cfg.max_retries → net i = .connectError) →
        net cfg.max_retries = .response r →
        isSuccessStatus r.status = true →
        (r.content = "" ∨ ∃ j, r.jsonBody = some j) →
        requestT cfg url net = (handle_response cfg r, cfg.max_retries + 1) ∧
        ∃ p, handle_response cfg r = .ok p)
    ∧
    (∀ (cfg : Config) (url : String) (net : Nat → AttemptOutcome),
        cfg.max_retries = 0 → net 0 = .connectError →
        requestT cfg url net =
          (.error (.matrixConnection (connectFailMsg url 1)), 1)) := by
  refine ⟨?_, ?_, ?_⟩
  · intro cfg url net h
    unfold requestT
    have := requestGo_all_connect cfg url net cfg.max_retries 0
      (by intro i h1 h2; exact h i (by omega))
    simpa using this
  · intro cfg url net r hpre hresp hsucc hdec
    constructor
    · unfold requestT
      have := requestGo_response cfg url net cfg.max_retries 0 cfg.max_retries r
        (Nat.le_refl _) ?_ ?_
      · simpa using this
      · intro i h1 h2
        have hconn := hpre i (by omega)
        rw [hconn]
        rfl
      · rw [Nat.zero_add]
        exact hresp
    · by_cases hc : r.content = ""
      · refine ⟨.jobj [], ?_⟩
        simp [handle_response, hsucc, hc]
      · obtain ⟨j, hj⟩ := hdec.resolve_left hc
        refine ⟨j, ?_⟩
        simp [handle_response, hsucc, hc, hj]
  · intro cfg url net h0 hc
    unfold requestT
    rw [h0]
    have := requestGo_all_connect cfg url net 0 0
      (by intro i h1 h2; have hi : i = 0 := (by omega); subst hi; exact hc)
    simpa using this

/-- C1 witness: the three parts of the amended claim at concrete inputs
(`max_retries = 3` with four connect failures; `max_retries = 0` with
one connect failure; three connect failures then a 200 response). -/
theorem C1_retry_bound_witness :
    requestT cfgNone "http://hub/health" (fun _ => .connectError) =
      (.error (.matrixConnection (connectFailMsg "http://hub/health" 4)), 4) ∧
    requestT cfgZero "http://hub/health" (fun _ => .connectError) =
      (.error (.matrixConnection (connectFailMsg "http://hub/health" 1)), 1) ∧
    requestT cfgNone "http://hub/health"
        (fun i => if i < 3 then .connectError else .response r200ok) =
      (.ok (.jobj [("status", .jstr "ok")]), 4) := by
  refine ⟨?_, ?_, ?_⟩
  · exact C1_retry_bound.1 cfgNone _ _ (fun i _ => rfl)
  · exact C1_retry_bound.2.2 cfgZero _ _ rfl rfl
  · have := (C1_retry_bound.2.1 cfgNone "http://hub/health"
      (fun i => if i < 3 then .connectError else .response r200ok) r200ok
      (fun i hi => by
        have hi3 : i < 3 := hi
        simp [if_pos hi3])
      rfl rfl (Or.inr ⟨_, rfl⟩)).1
    rw [this]
    rfl

/-- C1 counterexample: a 302 response without a Location header has
status below 400, yet the call classifies it as an error
(`MatrixAPIError`) instead of returning a decoded payload, refuting the
original "<400 means success" reading. -/
theorem C1_counterexample :
    r302NoLoc.status < 400 ∧
    (requestT cfgZero "http://hub/health" (fun _ => .response r302NoLoc)).1 =
      .error (.matrixAPI (.jstr r302NoLoc.statusText) 302 (.jobj [])) := by
  exact ⟨by norm_num [r302NoLoc], rfl⟩

/-- C2: a received HTTP response — success or any status-derived error —
is terminal: if the first `k` attempts are transport failures and
attempt `k` (within the budget) receives a response, the loop performs
exactly `k + 1` attempts and surfaces the classifier's outcome for that
response; only connect failures and timeouts are ever retried. -/
theorem C2_response_terminal :
    ∀ (cfg : Config) (url : String) (net : Nat → AttemptOutcome)
      (k : Nat) (r : Response),
      k ≤ cfg.max_retries →
      (∀ i, i < k → (net i).isTransport = true) →
      net k = .response r →
      requestT cfg url net = (handle_response cfg r, k + 1) := by
  intro cfg url net k r hk htrans hresp
  unfold requestT
  have := requestGo_response cfg url net k 0 cfg.max_retries r hk ?_ ?_
  · simpa using this
  · intro i h1 h2
    exact htrans i (by omega)
  · rw [Nat.zero_add]
    exact hresp

/-- C2 witness: with budget 3 remaining after one connect failure, a 404
response on attempt 2 terminates the call immediately (2 attempts). -/
theorem C2_response_terminal_witness :
    1 ≤ cfgNone.max_retries ∧
    requestT cfgNone "http://hub/missing" netMix =
      (.error (.matrixNotFound (.jstr r404bad.statusText) 404), 2) := by
  constructor
  · decide
  · have := C2_response_terminal cfgNone "http://hub/missing" netMix 1 r404bad
      (by decide)
      (by intro i hi; have h0 : i = 0 := (by omega); subst h0; rfl)
      rfl
    rw [this]
    rfl

/-- Helper: a response received on the very first attempt terminates the
call with the classifier's outcome after exactly one attempt. -/
theorem requestT_first_response (cfg : Config) (url : String) (r : Response) :
    requestT cfg url (fun _ => .response r) = (handle_response cfg r, 1) := by
  unfold requestT
  have := requestGo_response cfg url (fun _ => .response r) 0 0 cfg.max_retries r
    (Nat.zero_le _) (by intro i h1 h2; omega) rfl
  simpa using this

/-- Helper: the classification of a 429 response carrying a
`Retry-After` header value. -/
theorem handle_response_429_some (cfg : Config) (r : Response) (s : String)
    (hs : r.status = 429) (hh : r.retryAfterHeader = some s) :
    handle_response cfg r =
      (if (s != "") = true then
        match pyInt s with
        | some n => .error (.matrixRateLimit (errorMessageOf r) 429 (some n))
        | none => .error (.valueError s)
      else .error (.matrixRateLimit (errorMessageOf r) 429 none)) := by
  unfold handle_response
  rw [hs, hh]
  rfl

/-- Helper: the classification of a 429 response without a
`Retry-After` header. -/
theorem handle_response_429_none (cfg : Config) (r : Response)
    (hs : r.status = 429) (hh : r.retryAfterHeader = none) :
    handle_response cfg r =
      .error (.matrixRateLimit (errorMessageOf r) 429 none) := by
  unfold handle_response
  rw [hs, hh]
  rfl

/-- C3 (evaluation of the defect): on an error response whose body is
not valid JSON, the 404 branch degrades the message to the raw status
text as the spec requires, but the 422 branch and the generic `>= 400`
branch reference the never-assigned local `error_data` and raise
`UnboundLocalError` instead of the typed error the spec (and the
method's own docstring) promise. -/
theorem C3_nonjson_error_body :
    handle_response cfgNone r404bad =
      .error (.matrixNotFound (.jstr r404bad.statusText) 404) ∧
    handle_response cfgNone r422bad = .error .unboundLocalError ∧
    handle_response cfgNone r500bad = .error .unboundLocalError :=
  ⟨rfl, rfl, rfl⟩

/-- C4 (amended): when the retry budget is exhausted, the terminal
ConnectionFailure message names the total number of attempts made; the
terminal Timeout message instead names the configured timeout in
seconds and does not name the attempt count (see the counterexample). -/
theorem C4_exhaustion_messages :
    (∀ (cfg : Config) (url : String) (net : Nat → AttemptOutcome),
        (∀ i, i ≤ cfg.max_retries → net i = .connectError) →
        (requestT cfg url net).1 =
          .error (.matrixConnection (connectFailMsg url (cfg.max_retries + 1))) ∧
        strHasSub (connectFailMsg url (cfg.max_retries + 1))
          (toString (cfg.max_retries + 1)) = true)
    ∧
    (∀ (cfg : Config) (url : String) (net : Nat → AttemptOutcome),
        (∀ i, i ≤ cfg.max_retries → net i = .timeoutError) →
        (requestT cfg url net).1 =
          .error (.matrixTimeout (timeoutFailMsg url cfg.timeout)) ∧
        strHasSub (timeoutFailMsg url cfg.timeout)
          (toString cfg.timeout ++ "s") = true) := by
  constructor
  · intro cfg url net h
    constructor
    · unfold requestT
      have := requestGo_all_connect cfg url net cfg.max_retries 0
        (by intro i h1 h2; exact h i (by omega))
      rw [this]
      simp
    · unfold connectFailMsg
      exact strHasSub_mid _ _ _
  · intro cfg url net h
    constructor
    · unfold requestT
      have := requestGo_all_timeout cfg url net cfg.max_retries 0
        (by intro i h1 h2; exact h i (by omega))
      rw [this]
    · unfold timeoutFailMsg
      exact strHasSub_suffix2 _ _ _

/-- C4 witness: both exhaustion messages at `max_retries = 3`,
`timeout = 30`: the connect message contains "4", the timeout message
contains "30s". -/
theorem C4_exhaustion_messages_witness :
    (requestT cfgNone "http://hub/health" (fun _ => .connectError)).1 =
      .error (.matrixConnection (connectFailMsg "http://hub/health" 4)) ∧
    strHasSub (connectFailMsg "http://hub/health" 4) (toString 4) = true ∧
    (requestT cfgNone "http://hub/health" (fun _ => .timeoutError)).1 =
      .error (.matrixTimeout (timeoutFailMsg "http://hub/health" 30)) ∧
    strHasSub (timeoutFailMsg "http://hub/health" 30) (toString 30 ++ "s") = true := by
  have h1 := C4_exhaustion_messages.1 cfgNone "http://hub/health"
    (fun _ => .connectError) (fun i _ => rfl)
  have h2 := C4_exhaustion_messages.2 cfgNone "http://hub/health"
    (fun _ => .timeoutError) (fun i _ => rfl)
  exact ⟨h1.1, h1.2, h2.1, h2.2⟩

/-- C4 counterexample: with `max_retries = 0` the call makes 1 attempt,
but the terminal Timeout message "Request to u timed out after 30s"
does not contain the attempt count "1" — it names the timeout, refuting
the claim that both terminal messages name the attempt count. -/
theorem C4_counterexample :
    (requestT cfgZero "u" (fun _ => .timeoutError)) =
      (.error (.matrixTimeout "Request to u timed out after 30s"), 1) ∧
    strHasSub "Request to u timed out after 30s" "1" = false := by
  exact ⟨rfl, by decide⟩

/-- C5: a 401/403 response is classified as an AuthenticationFailure
whose message is the extracted error message followed by the
missing-token hint exactly when no (truthy) token is configured; under
the hypothesis that the extracted message itself does not contain the
hint text, the message contains the hint iff no token is configured. -/
theorem C5_auth_hint (cfg : Config) (r : Response)
    (hs : r.status = 401 ∨ r.status = 403)
    (hclean : strHasSub (errorMessageOf r).pyStr missingTokenHint = false) :
    handle_response cfg r =
      .error (.matrixAuth
        ((errorMessageOf r).pyStr ++
          (if cfg.tokenTruthy then "" else missingTokenHint)) r.status) ∧
    (strHasSub
        ((errorMessageOf r).pyStr ++
          (if cfg.tokenTruthy then "" else missingTokenHint))
        missingTokenHint = true ↔ cfg.tokenTruthy = false) := by
  have hns : isSuccessStatus r.status = false := by
    rcases hs with h | h <;> rw [h] <;> rfl
  constructor
  · unfold handle_response
    rw [hns]
    rw [if_neg (by simp)]
    rw [if_pos hs]
  · cases htok : cfg.tokenTruthy with
    | false =>
        simp only [Bool.false_eq_true, if_false]
        simp [strHasSub_suffix]
    | true =>
        simp only [if_true]
        rw [str_append_empty, hclean]
        simp

/-- C5 witness: a 401 response with an empty JSON object body, once with
no token configured (hint present) and once with a token (hint absent). -/
theorem C5_auth_hint_witness :
    handle_response cfgNone r401plain =
      .error (.matrixAuth (r401plain.statusText ++ missingTokenHint) 401) ∧
    handle_response cfgTok r401plain =
      .error (.matrixAuth r401plain.statusText 401) ∧
    strHasSub (r401plain.statusText ++ missingTokenHint) missingTokenHint = true ∧
    strHasSub r401plain.statusText missingTokenHint = false := by
  have hclean : strHasSub (errorMessageOf r401plain).pyStr missingTokenHint = false := by
    decide
  have h1 := C5_auth_hint cfgNone r401plain (Or.inl rfl) hclean
  have h2 := C5_auth_hint cfgTok r401plain (Or.inl rfl) hclean
  refine ⟨h1.1, ?_, h1.2.mpr rfl, hclean⟩
  have := h2.1
  rw [this]
  rfl

/-- C6: a 422 response whose JSON body is an object with a string
`detail` field is classified as a ValidationFailure whose message is
that string and whose structured payload is the parsed body verbatim. -/
theorem C6_validation_detail (cfg : Config) (r : Response) (d : String)
    (hs : r.status = 422)
    (hb : r.jsonBody = some (.jobj [("detail", .jstr d)])) :
    handle_response cfg r =
      .error (.matrixValidation (.jstr d) 422 (.jobj [("detail", .jstr d)])) := by
  unfold handle_response errorDataOf errorMessageOf
  rw [hs, hb]
  rfl

/-- C6 witness: the spec's own example, body `\x7b"detail": "bad field"\x7d`. -/
theorem C6_validation_detail_witness :
    handle_response cfgNone r422detail =
      .error (.matrixValidation (.jstr "bad field") 422
        (.jobj [("detail", .jstr "bad field")])) :=
  C6_validation_detail cfgNone r422detail "bad field" rfl rfl

/-- C7: a 429 response is classified as RateLimited with
`retry_after = 7` when the header is `Retry-After: 7`, and with no
retry-after when the header is absent; in both cases the call makes
exactly one attempt. -/
theorem C7_rate_limit (cfg : Config) (url : String) (r : Response)
    (hs : r.status = 429) :
    (r.retryAfterHeader = some "7" →
      requestT cfg url (fun _ => .response r) =
        (.error (.matrixRateLimit (errorMessageOf r) 429 (some 7)), 1)) ∧
    (r.retryAfterHeader = none →
      requestT cfg url (fun _ => .response r) =
        (.error (.matrixRateLimit (errorMessageOf r) 429 none), 1)) := by
  constructor
  · intro hh
    rw [requestT_first_response, handle_response_429_some cfg r "7" hs hh]
    rfl
  · intro hh
    rw [requestT_first_response, handle_response_429_none cfg r hs hh]

/-- C7 witness: the two header shapes at concrete responses. -/
theorem C7_rate_limit_witness :
    requestT cfgNone "http://hub/search" (fun _ => .response r429seven) =
      (.error (.matrixRateLimit (.jstr r429seven.statusText) 429 (some 7)), 1) ∧
    requestT cfgNone "http://hub/search" (fun _ => .response r429bare) =
      (.error (.matrixRateLimit (.jstr r429bare.statusText) 429 none), 1) := by
  constructor
  · exact (C7_rate_limit cfgNone "http://hub/search" r429seven rfl).1 rfl
  · exact (C7_rate_limit cfgNone "http://hub/search" r429bare rfl).2 rfl

/-- C8 (amended): a response with a successful (2xx) status decodes an
empty body to the empty map and a valid JSON body to the parsed map,
and surfaces a decode failure on a non-empty invalid body as a hard
error; in every case the call makes exactly one attempt (never
retried).  (The original claim said "status < 400": a non-2xx status
below 400 raises `HTTPStatusError` and is routed to the error
classifier, see the counterexample.) -/
theorem C8_success_decode (cfg : Config) (url : String) (r : Response)
    (hsucc : isSuccessStatus r.status = true) :
    (r.content = "" →
      requestT cfg url (fun _ => .response r) = (.ok (.jobj []), 1)) ∧
    (∀ j, r.content ≠ "" → r.jsonBody = some j →
      requestT cfg url (fun _ => .response r) = (.ok j, 1)) ∧
    (r.content ≠ "" → r.jsonBody = none →
      requestT cfg url (fun _ => .response r) = (.error .jsonDecodeError, 1)) := by
  refine ⟨?_, ?_, ?_⟩
  · intro hc
    rw [requestT_first_response]
    unfold handle_response
    rw [hsucc, hc]
    rfl
  · intro j hc hj
    have hb : (r.content != "") = true := by simp [bne_iff_ne, hc]
    rw [requestT_first_response]
    unfold handle_response
    rw [hsucc, if_pos rfl, if_pos hb, hj]
  · intro hc hj
    have hb : (r.content != "") = true := by simp [bne_iff_ne, hc]
    rw [requestT_first_response]
    unfold handle_response
    rw [hsucc, if_pos rfl, if_pos hb, hj]

/-- C8 witness: a 200 response with empty body, with body
`\x7b"status": "ok"\x7d`, and with an undecodable non-empty body. -/
theorem C8_success_decode_witness :
    requestT cfgNone "http://hub/health" (fun _ => .response r200empty) =
      (.ok (.jobj []), 1) ∧
    requestT cfgNone "http://hub/health" (fun _ => .response r200ok) =
      (.ok (.jobj [("status", .jstr "ok")]), 1) ∧
    requestT cfgNone "http://hub/health" (fun _ => .response r200bad) =
      (.error .jsonDecodeError, 1) := by
  refine ⟨?_, ?_, ?_⟩
  · exact (C8_success_decode cfgNone _ r200empty rfl).1 rfl
  · exact (C8_success_decode cfgNone _ r200ok rfl).2.1 _ (by decide) rfl
  · exact (C8_success_decode cfgNone _ r200bad rfl).2.2 (by decide) rfl

/-- C8 counterexample: a 304 response has status below 400 and an empty
body, yet the call does not return the empty map — the response is
routed to the error classifier, which (given the empty, undecodable
body) raises UnboundLocalError. -/
theorem C8_counterexample :
    r304.status < 400 ∧ r304.content = "" ∧
    (requestT cfgNone "http://hub/health" (fun _ => .response r304)).1 =
      .error .unboundLocalError := by
  exact ⟨by norm_num [r304], rfl, rfl⟩

/-! Dict-lookup lemmas for the header merge. -/

theorem lookup_map_ovHdr (u : List (String × String)) (k : String) :
    ∀ d : List (String × String),
      (d.map (ovHdr u)).lookup k = (d.lookup k).map (fun v => (u.lookup k).getD v) := by
  intro d
  induction d with
  | nil => rfl
  | cons kv rest ih =>
      obtain ⟨k1, v1⟩ := kv
      by_cases hk : k = k1
      · subst hk
        cases hu : u.lookup k with
        | some w => simp [ovHdr, hu, List.lookup]
        | none => simp [ovHdr, hu, List.lookup]
      · have hkb : (k == k1) = false := by simp [hk]
        cases hu : u.lookup k1 with
        | some w => simp [ovHdr, hu, List.lookup, hkb, ih]
        | none => simp [ovHdr, hu, List.lookup, hkb, ih]

theorem lookup_filter_keys (d : List (String × String)) (k : String) :
    ∀ u : List (String × String),
      (u.filter (fun kv => (d.lookup kv.1).isNone)).lookup k =
        if (d.lookup k).isNone then u.lookup k else none := by
  intro u
  induction u with
  | nil => simp
  | cons kv rest ih =>
      obtain ⟨k1, v1⟩ := kv
      by_cases hk : k = k1
      · subst hk
        cases hp : (d.lookup k).isNone with
        | true => simp [List.filter, hp, List.lookup, ih]
        | false => simp [List.filter, hp, List.lookup, ih]
      · have hkb : (k == k1) = false := by simp [hk]
        cases hp : (d.lookup k1).isNone with
        | true => simp [List.filter, hp, List.lookup, hkb, ih]
        | false => simp [List.filter, hp, List.lookup, hkb, ih]

theorem lookup_dictUpdate (d u : List (String × String)) (k : String) :
    (dictUpdate d u).lookup k =
      match u.lookup k with
      | some v => some v
      | none => d.lookup k := by
  unfold dictUpdate
  rw [List.lookup_append, lookup_map_ovHdr, lookup_filter_keys]
  cases hu : u.lookup k with
  | some w =>
      cases hd : d.lookup k with
      | some v => simp [hd, hu]
      | none => simp [hd, hu]
  | none =>
      cases hd : d.lookup k with
      | some v => simp [hd, hu]
      | none => simp [hd, hu]

/-- C9: for every caller-supplied header map, the outgoing merged
headers carry the client's fixed Content-Type, Accept, and User-Agent
values (overwriting any caller-supplied ones), Authorization is
`Bearer <token>` whenever a (truthy) token is configured, every other
caller-supplied header passes through unchanged, and with no token
configured a caller-supplied Authorization header is preserved. -/
theorem C9_header_injection (cfg : Config) (caller : List (String × String)) :
    (mergedHeaders cfg caller).lookup "Content-Type" = some "application/json" ∧
    (mergedHeaders cfg caller).lookup "Accept" = some "application/json" ∧
    (mergedHeaders cfg caller).lookup "User-Agent" = some "matrix-system/1.0.0" ∧
    (∀ tok, cfg.api_token = some tok → tok ≠ "" →
      (mergedHeaders cfg caller).lookup "Authorization" = some ("Bearer " ++ tok)) ∧
    (cfg.tokenTruthy = false →
      (mergedHeaders cfg caller).lookup "Authorization" =
        caller.lookup "Authorization") ∧
    (∀ k, k ≠ "Content-Type" → k ≠ "Accept" → k ≠ "User-Agent" →
      k ≠ "Authorization" →
      (mergedHeaders cfg caller).lookup k = caller.lookup k) := by
  refine ⟨?_, ?_, ?_, ?_, ?_, ?_⟩
  · unfold mergedHeaders
    rw [lookup_dictUpdate]
    cases htok : cfg.tokenTruthy <;> simp [get_headers, htok, List.lookup]
  · unfold mergedHeaders
    rw [lookup_dictUpdate]
    cases htok : cfg.tokenTruthy <;> simp [get_headers, htok, List.lookup]
  · unfold mergedHeaders
    rw [lookup_dictUpdate]
    cases htok : cfg.tokenTruthy <;> simp [get_headers, htok, List.lookup]
  · intro tok htok hne
    have ht : cfg.tokenTruthy = true := by
      simp [Config.tokenTruthy, htok, hne]
    unfold mergedHeaders
    rw [lookup_dictUpdate]
    simp [get_headers, ht, List.lookup, htok]
  · intro ht
    unfold mergedHeaders
    rw [lookup_dictUpdate]
    simp [get_headers, ht, List.lookup]
  · intro k h1 h2 h3 h4
    have hb1 : (k == "Content-Type") = false := by simp [h1]
    have hb2 : (k == "Accept") = false := by simp [h2]
    have hb3 : (k == "User-Agent") = false := by simp [h3]
    have hb4 : (k == "Authorization") = false := by simp [h4]
    unfold mergedHeaders
    rw [lookup_dictUpdate]
    cases htok : cfg.tokenTruthy <;>
      simp [get_headers, htok, List.lookup, hb1, hb2, hb3, hb4]

/-- C9 witness: concrete caller header maps with and without a
configured token. -/
theorem C9_header_injection_witness :
    (mergedHeaders cfgTok [("X-Trace", "abc"), ("Accept", "text/html")]).lookup
        "Accept" = some "application/json" ∧
    (mergedHeaders cfgTok [("X-Trace", "abc")]).lookup "Authorization" =
      some ("Bearer " ++ "seekrit") ∧
    (mergedHeaders cfgTok [("X-Trace", "abc")]).lookup "X-Trace" = some "abc" ∧
    (mergedHeaders cfgNone [("Authorization", "Bearer caller")]).lookup
        "Authorization" = some "Bearer caller" := by
  refine ⟨?_, ?_, ?_, ?_⟩
  · exact (C9_header_injection cfgTok _).2.1
  · exact (C9_header_injection cfgTok _).2.2.2.1 "seekrit" rfl (by decide)
  · exact (C9_header_injection cfgTok _).2.2.2.2.2 "X-Trace"
      (by decide) (by decide) (by decide) (by decide)
  · have := (C9_header_injection cfgNone
      [("Authorization", "Bearer caller")]).2.2.2.2.1 rfl
    rw [this]
    rfl

/-- C10: a 429 response whose `Retry-After` header is present, non-empty
and not a valid integer literal makes the classifier raise a plain
ValueError from `int()` — not a RateLimited error, and not any typed
error of the taxonomy — after exactly one attempt. -/
theorem C10_retry_after_value_error (cfg : Config) (url : String) (r : Response)
    (s : String) (hs : r.status = 429) (hh : r.retryAfterHeader = some s)
    (hne : s ≠ "") (hbad : pyInt s = none) :
    requestT cfg url (fun _ => .response r) = (.error (.valueError s), 1) ∧
    PyError.isTaxonomyError (.valueError s) = false := by
  constructor
  · rw [requestT_first_response, handle_response_429_some cfg r s hs hh]
    have hb : (s != "") = true := by simp [bne_iff_ne, hne]
    rw [if_pos hb, hbad]
  · rfl

/-- C10 witness: `Retry-After: Wed, 21 Oct 2015 07:28:00 GMT` (an
HTTP-date, which the code does not attempt to parse). -/
theorem C10_retry_after_value_error_witness :
    requestT cfgNone "http://hub/search" (fun _ => .response r429date) =
      (.error (.valueError "Wed, 21 Oct 2015 07:28:00 GMT"), 1) ∧
    PyError.isTaxonomyError (.valueError "Wed, 21 Oct 2015 07:28:00 GMT") = false :=
  C10_retry_after_value_error cfgNone "http://hub/search" r429date
    "Wed, 21 Oct 2015 07:28:00 GMT" rfl rfl (by decide) (by decide)

end MatrixSystem
